import Mathlib

/-!
# Verification of the go-fanotify event channel and polling loops

Shallow embedding of the `s3rj1k/go-fanotify` repository:

* `src/fanotify/fanotify.go` — the library: constants, the internal
  `eventMetadata` wire struct, the public `EventMetadata` event, `NotifyFD`,
  `Initialize`, `GetEvent` (a little-endian `binary.Read` of one fixed-size
  record), and `ResponseAllow` / `ResponseDeny` (a little-endian
  `binary.Write` of the `response` struct).
* `src/cmd/main.go` — two `main` variants: the first uses the newer wrapper
  API (`GetEvent(os.Getpid())`, `MatchMask`, `GetPath`), the second decodes
  via the library `GetEvent()` and checks version / self-PID / mask inline.
* `src/unnamed/part_000` — a third `main` variant on the newer wrapper API,
  printing modification time and surfacing loop errors.

Bytes are modelled as `List Nat` (each entry one byte), streams as byte
lists consumed from the front, `os.File` values by the wrapped descriptor
number (`Int`), and fallible Go calls by `Option` / explicit outcome types.
-/

namespace Fanotify

/-! ## Little-endian byte primitives (model of `encoding/binary`, LE) -/

/-- Value of a little-endian byte list (least significant byte first). -/
def leVal : List Nat → Nat
  | [] => 0
  | b :: bs => b + 256 * leVal bs

/-- The `w`-byte little-endian encoding of `v` (truncating above `256^w`). -/
def leBytes : Nat → Nat → List Nat
  | 0, _ => []
  | w + 1, v => v % 256 :: leBytes w (v / 256)

/-- Read a `w`-byte little-endian field at byte offset `off`. -/
def readLE (bytes : List Nat) (off w : Nat) : Nat :=
  leVal ((bytes.drop off).take w)

/-- Interpret a `uint32`-ranged natural as a Go `int32` (two's complement). -/
def int32OfNat (n : Nat) : Int :=
  if n < 2147483648 then (n : Int) else (n : Int) - 4294967296

/-- The `uint32` wire image of a Go `int32` value (two's complement). -/
def nat32OfInt (i : Int) : Nat :=
  (i % 4294967296).toNat

/-! ## Constants from `src/fanotify/fanotify.go` -/

/-- FAN_MODIFY (`0x00000002`). -/
def FanModify : Nat := 2

/-- FAN_CLOSE_WRITE (`0x00000008`). -/
def FanCloseWrite : Nat := 8

/-- FANOTIFY_METADATA_VERSION. -/
def FanotifyMetadataVersion : Nat := 3

/-- FAN_ALLOW (`0x01`). -/
def FanAllow : Nat := 1

/-- FAN_DENY (`0x02`). -/
def FanDeny : Nat := 2

/-! ## Data model from `src/fanotify/fanotify.go` -/

/-- Internal `eventMetadata` struct, the fixed-layout wire record:
`uint32 Len, uint8 Version, uint8 Reserved, uint16 MetadataLen,
uint64 Mask, int32 Fd, int32 Pid` — 24 bytes total. -/
structure eventMetadata where
  Len : Nat
  Version : Nat
  Reserved : Nat
  MetadataLen : Nat
  Mask : Nat
  Fd : Int
  Pid : Int
deriving DecidableEq, Repr

/-- Size in bytes of one wire record (4+1+1+2+8+4+4). -/
def recordSize : Nat := 24

/-- Public `EventMetadata` struct returned by `GetEvent`; `File` models
`os.NewFile(uintptr(ev.Fd), "")` as the wrapped descriptor number. -/
structure EventMetadata where
  Len : Nat
  Version : Nat
  Reserved : Nat
  MetadataLen : Nat
  Mask : Nat
  File : Int
  Pid : Int
deriving DecidableEq, Repr

/-- `NotifyFD` notify handle; `f` models the wrapped notification-stream
descriptor (the `bufio.Reader` is modelled separately as the byte stream). -/
structure NotifyFD where
  f : Int
deriving DecidableEq, Repr

/-- Model of `binary.Read(nd.r, binary.LittleEndian, ev)` into the internal
`eventMetadata` struct: reads the 24-byte record little-endian field by
field at offsets 0, 4, 5, 6, 8, 16, 20; fails if the stream is shorter
than one record. -/
def decodeEventMetadata (bytes : List Nat) : Option eventMetadata :=
  if recordSize ≤ bytes.length then
    some
      { Len := readLE bytes 0 4
        Version := readLE bytes 4 1
        Reserved := readLE bytes 5 1
        MetadataLen := readLE bytes 6 2
        Mask := readLE bytes 8 8
        Fd := int32OfNat (readLE bytes 16 4)
        Pid := int32OfNat (readLE bytes 20 4) }
  else
    none

/-- `NotifyFD.GetEvent` from `src/fanotify/fanotify.go:214`: decode one
record from the stream and wrap it in the public struct
(`&EventMetadata{ev.Len, ev.Version, ev.Reserved, ev.MetadataLen, ev.Mask,
os.NewFile(uintptr(ev.Fd), ""), ev.Pid}`); `none` models the error return.
Returns the event together with the rest of the stream. -/
def GetEvent (stream : List Nat) : Option (EventMetadata × List Nat) :=
  match decodeEventMetadata stream with
  | none => none
  | some ev =>
      some
        ({ Len := ev.Len
           Version := ev.Version
           Reserved := ev.Reserved
           MetadataLen := ev.MetadataLen
           Mask := ev.Mask
           File := ev.Fd
           Pid := ev.Pid }, stream.drop recordSize)

/-- `Initialize` from `src/fanotify/fanotify.go:200`, parametrised by the
outcome of the `fanotify_init` syscall (returned descriptor and errno).
Mirrors the source: `err` is set only for nonzero errno, and the handle is
built unconditionally from the syscall's descriptor
(`return &NotifyFD{f, bufio.NewReader(f)}, err`). `Option NotifyFD` models
the Go pointer (`none` = nil). -/
def Initialize (fd : Int) (errno : Nat) : Option NotifyFD × Option Nat :=
  let err : Option Nat := if errno ≠ 0 then some errno else none
  (some { f := fd }, err)

/-- Model of `binary.Write(nd.f, binary.LittleEndian, resp)` for the
internal `response` struct `{Fd int32; Response uint32}`: the 8 bytes
written to the notification stream. -/
def responseWrite (fd : Int) (code : Nat) : List Nat :=
  leBytes 4 (nat32OfInt fd) ++ leBytes 4 code

/-- `NotifyFD.ResponseAllow` (`src/fanotify/fanotify.go:228`): writes
`response{Fd: int32(ev.File.Fd()), Response: FanAllow}`. -/
def ResponseAllow (ev : EventMetadata) : List Nat :=
  responseWrite ev.File FanAllow

/-- `NotifyFD.ResponseDeny` (`src/fanotify/fanotify.go:237`): writes
`response{Fd: int32(ev.File.Fd()), Response: FanDeny}`. -/
def ResponseDeny (ev : EventMetadata) : List Nat :=
  responseWrite ev.File FanDeny

/-! ## Spec-side wire-format definitions (for refinement claims)

These two definitions follow the spec's words in §6 ("fixed-size
little-endian record — `uint32 length, uint8 version, uint8 reserved,
uint16 metadataLength, uint64 eventMask, int32 fd, int32 pid`; response
record — `int32 fd, uint32 responseCode`"), to be compared with the
source-side decoder and writers above. -/

/-- Spec §6 wire layout of one event record: the concatenation of the
little-endian fields in declared order and width. -/
def specEncodeRecord (len version reserved metaLen mask : Nat) (fd pid : Int) :
    List Nat :=
  leBytes 4 len ++ leBytes 1 version ++ leBytes 1 reserved ++
    leBytes 2 metaLen ++ leBytes 8 mask ++ leBytes 4 (nat32OfInt fd) ++
    leBytes 4 (nat32OfInt pid)

/-- Spec §6 wire layout of one response record: `int32 fd` then
`uint32 responseCode`, little-endian. -/
def specResponseRecord (fd : Int) (code : Nat) : List Nat :=
  leBytes 4 (nat32OfInt fd) ++ leBytes 4 code

/-! ## Wrapper operations and the three main-program variants -/

/-- Modelled from the spec: `MatchMask(event, mask)` of the current wrapper
library is not under `src/` (only its call sites in `src/cmd/main.go` and
`src/unnamed/part_000` are); spec §4.1 says "Pure predicate: true iff all
bits of `mask` are set in the event's mask", and the inline form at
`src/cmd/main.go:147` / `:151` is `(event.Mask & m) == m`. -/
def MatchMask (evMask m : Nat) : Bool :=
  evMask &&& m == m

/-- `fmt.Sprintf("PID:%d %s", pid, path)` from `src/cmd/main.go:57` /
`:148`. -/
def formatLine (pid : Int) (path : String) : String :=
  "PID:" ++ toString pid ++ " " ++ path

/-- `fmt.Sprintf("PID:%d %s - %v", pid, path, mTime)` from
`src/unnamed/part_000:75`. -/
def formatLineMTime (pid : Int) (path mtime : String) : String :=
  "PID:" ++ toString pid ++ " " ++ path ++ " - " ++ mtime

/-- Kinds of error the per-event handlers produce (each constructor is one
`return "", err` site of the Go handlers). -/
inductive ErrKind where
  | readError
  | versionMismatch
  | selfPid
  | pathError
  | statError
  | unknownEvent
deriving DecidableEq, Repr

/-- Result of one Go handler call: the returned `(string, error)` pair with
`error == nil` iff `ok`. -/
inductive HandlerRes where
  | ok (line : String)
  | err (k : ErrKind)
deriving DecidableEq, Repr

/-- The per-event handler closure of the second `main` variant
(`src/cmd/main.go:118` – `:156`), over the notification stream, the
watcher's own pid, and the `/proc/self/fd/<n>` readlink (`resolve`).
Returns the handler result, the remaining stream, and whether the event's
embedded `File` was closed. Source order: `GetEvent` (on error: return, no
file was created), `defer data.File.Close()` (so every later return path
closes the descriptor before the result reaches the caller), version
check, self-PID check, readlink, the two mask checks. A failed `GetEvent`
(short stream) consumes whatever was available. -/
def handlerV2 (stream : List Nat) (selfPid : Int)
    (resolve : Int → Option String) : HandlerRes × List Nat × Bool :=
  match GetEvent stream with
  | none => (.err .readError, [], false)
  | some (data, rest) =>
      if data.Version ≠ FanotifyMetadataVersion then
        (.err .versionMismatch, rest, true)
      else if data.Pid = selfPid then
        (.err .selfPid, rest, true)
      else
        match resolve data.File with
        | none => (.err .pathError, rest, true)
        | some path =>
            if data.Mask &&& FanModify = FanModify then
              (.ok (formatLine data.Pid path), rest, true)
            else if data.Mask &&& FanCloseWrite = FanCloseWrite then
              (.ok (formatLine data.Pid path), rest, true)
            else
              (.err .unknownEvent, rest, true)

/-- Modelled from the spec: the skip-PIDs pull operation
(`GetEvent(skipPIDs...)` of the current wrapper library) is not under
`src/` (only its callers in `src/cmd/main.go:40` and
`src/unnamed/part_000:48` are). Spec §4.1 `Pull`: (1) read one record, (2)
on version mismatch still close the embedded descriptor and fail, (3) if
the record's pid is in `skipPIDs` close the descriptor and return an empty
result (not an error), (4) otherwise return the event. Returns the pull
outcome (`none` data = Go `(nil, nil)` empty result), the remaining
stream, and whether `Pull` itself closed the embedded descriptor. -/
def Pull (stream : List Nat) (skipPIDs : List Int) :
    (Option ErrKind × Option EventMetadata) × List Nat × Bool :=
  match GetEvent stream with
  | none => ((some .readError, none), [], false)
  | some (data, rest) =>
      if data.Version ≠ FanotifyMetadataVersion then
        ((some .versionMismatch, none), rest, true)
      else if data.Pid ∈ skipPIDs then
        ((none, none), rest, true)
      else
        ((none, some data), rest, false)

/-- Outcome of one call of a wrapper-API handler closure (first
`src/cmd/main.go` variant, `src/unnamed/part_000` variant). `panicked`
models a Go nil-pointer dereference aborting the handler. `empty` is the
`return "", nil` of the `if data == nil` guard. -/
inductive Outcome1 where
  | panicked
  | empty
  | errored (k : ErrKind)
  | line (s : String)
deriving DecidableEq, Repr

/-- The per-event handler closure of the first `main` variant
(`src/cmd/main.go:39` – `:65`), over the result of
`notify.GetEvent(os.Getpid())` (error, or possibly-nil event) and the path
resolution. Source order: on error return; then `defer data.File().Close()`
— Go evaluates the receiver expression `data.File()` at the `defer`
statement, so a nil `data` is dereferenced here, before the `if data == nil`
guard on the next line can run; then the nil guard, `GetPath`, and the two
`MatchMask` checks. -/
def handlerV1 (pullErr : Option ErrKind) (data : Option EventMetadata)
    (resolve : Int → Option String) : Outcome1 :=
  match pullErr with
  | some k => .errored k
  | none =>
      match data with
      | none => .panicked
      | some ev =>
          if (some ev : Option EventMetadata) = none then .empty
          else
            match resolve ev.File with
            | none => .errored .pathError
            | some path =>
                if MatchMask ev.Mask FanModify then
                  .line (formatLine ev.Pid path)
                else if MatchMask ev.Mask FanCloseWrite then
                  .line (formatLine ev.Pid path)
                else
                  .errored .unknownEvent

/-- The per-event handler closure of `src/unnamed/part_000:47` – `:79`,
which checks `if data == nil` before any use of `data`, then resolves the
path, stats the file for its modification time, and formats
`PID:<n> <path> - <mtime>` for a close-write or modify event. `stat`
models `dataFile.Stat()` followed by `ModTime()`, rendered as a string. -/
def handlerPart000 (pullErr : Option ErrKind) (data : Option EventMetadata)
    (resolve : Int → Option String) (stat : Int → Option String) : Outcome1 :=
  match pullErr with
  | some k => .errored k
  | none =>
      match data with
      | none => .empty
      | some ev =>
          match resolve ev.File with
          | none => .errored .pathError
          | some path =>
              match stat ev.File with
              | none => .errored .statError
              | some mtime =>
                  if MatchMask ev.Mask FanCloseWrite ||
                      MatchMask ev.Mask FanModify then
                    .line (formatLineMTime ev.Pid path mtime)
                  else
                    .errored .unknownEvent

/-! ## The polling loops and startup (`main` bodies) -/

/-- One iteration's output of both `src/cmd/main.go` polling loops
(`:67` – `:71` and `:158` – `:162`):
`if str, err := f(nd); err == nil && len(str) > 0 { fmt.Printf("%s\n", str) }`.
The handler's error is dropped: nothing is printed for it. -/
def cmdLoopIterOutput (str : String) (err : Option ErrKind) : List String :=
  match err with
  | some _ => []
  | none => if 0 < str.length then [str] else []

/-- One iteration's output of the `src/unnamed/part_000` polling loop
(`:81` – `:90`): prints `str` when there is no error and `str` is
non-empty, and prints `error: <err>` when there is an error (`errText` is
the rendered Go error text). -/
def part000LoopIterOutput (str : String) (errText : Option String) :
    List String :=
  (match errText with
   | some _ => []
   | none => if 0 < str.length then [str] else []) ++
  (match errText with
   | some m => ["error: " ++ m]
   | none => [])

/-- Every variant's loop is `for { ... }` with no `break` or `return`: no
iteration outcome makes the loop exit. `false` = the loop does not exit. -/
def loopExits (_res : HandlerRes) : Bool :=
  false

/-- The startup phase common to all three `main` variants: `Initialize`
then `Mark`, each followed by `log.Fatalf` on error; reaching the loop
requires both to succeed. Returns `some e` when the process aborts with a
fatal exit before the loop starts, `none` when it enters the loop. -/
def mainStartup (initErr markErr : Option String) : Option String :=
  match initErr with
  | some e => some e
  | none =>
      match markErr with
      | some e => some e
      | none => none

/-! ## Helper lemmas on the byte primitives -/

theorem leBytes_length (w v : Nat) : (leBytes w v).length = w := by
  induction w generalizing v with
  | zero => rfl
  | succ w ih => simp [leBytes, ih]

theorem leVal_leBytes (w v : Nat) : leVal (leBytes w v) = v % 256 ^ w := by
  induction w generalizing v with
  | zero => simp [leBytes, leVal, Nat.mod_one]
  | succ w ih =>
      rw [leBytes, leVal, ih, pow_succ', Nat.mod_mul]

theorem leVal_leBytes_of_lt (w v : Nat) (h : v < 256 ^ w) :
    leVal (leBytes w v) = v := by
  rw [leVal_leBytes, Nat.mod_eq_of_lt h]

theorem nat32OfInt_lt (i : Int) : nat32OfInt i < 256 ^ 4 := by
  unfold nat32OfInt
  norm_num
  omega

theorem int32OfNat_nat32OfInt (i : Int) (h1 : -2147483648 ≤ i)
    (h2 : i < 2147483648) : int32OfNat (nat32OfInt i) = i := by
  unfold int32OfNat nat32OfInt
  split <;> omega

/-- Reading a field whose bytes are exactly `mid`, sitting after a prelude
of length `off`. -/
theorem readLE_extract (pre mid post : List Nat) (w : Nat)
    (hmid : mid.length = w) :
    readLE (pre ++ (mid ++ post)) pre.length w = leVal mid := by
  unfold readLE
  rw [List.drop_left, ← hmid, List.take_left]

theorem readLE_at (pre mid post : List Nat) (off w : Nat)
    (hoff : pre.length = off) (hmid : mid.length = w) :
    readLE (pre ++ (mid ++ post)) off w = leVal mid := by
  subst hoff
  exact readLE_extract pre mid post w hmid

theorem specEncodeRecord_length (len version reserved metaLen mask : Nat)
    (fd pid : Int) :
    (specEncodeRecord len version reserved metaLen mask fd pid).length = 24 := by
  simp [specEncodeRecord, leBytes_length]

/-- Decoding the spec-layout record (followed by any remaining stream)
recovers every field, provided each field value fits its declared width. -/
theorem decode_spec_encode (len version reserved metaLen mask : Nat)
    (fd pid : Int) (rest : List Nat)
    (hlen : len < 256 ^ 4) (hver : version < 256) (hres : reserved < 256)
    (hmeta : metaLen < 256 ^ 2) (hmask : mask < 256 ^ 8)
    (hfd1 : -2147483648 ≤ fd) (hfd2 : fd < 2147483648)
    (hpid1 : -2147483648 ≤ pid) (hpid2 : pid < 2147483648) :
    decodeEventMetadata
        (specEncodeRecord len version reserved metaLen mask fd pid ++ rest) =
      some ⟨len, version, reserved, metaLen, mask, fd, pid⟩ := by
  have hshape : ∀ tail : List Nat,
      specEncodeRecord len version reserved metaLen mask fd pid ++ tail =
        leBytes 4 len ++ (leBytes 1 version ++ (leBytes 1 reserved ++
          (leBytes 2 metaLen ++ (leBytes 8 mask ++ (leBytes 4 (nat32OfInt fd) ++
            (leBytes 4 (nat32OfInt pid) ++ tail)))))) := by
    intro tail
    simp [specEncodeRecord, List.append_assoc]
  have e0 : readLE
      (specEncodeRecord len version reserved metaLen mask fd pid ++ rest) 0 4 =
      leVal (leBytes 4 len) := by
    rw [hshape rest]
    exact readLE_at [] (leBytes 4 len) _ 0 4 rfl (leBytes_length 4 len)
  have e4 : readLE
      (specEncodeRecord len version reserved metaLen mask fd pid ++ rest) 4 1 =
      leVal (leBytes 1 version) := by
    rw [hshape rest]
    exact readLE_at (leBytes 4 len) (leBytes 1 version) _ 4 1
      (by simp [leBytes_length]) (leBytes_length 1 version)
  have e5 : readLE
      (specEncodeRecord len version reserved metaLen mask fd pid ++ rest) 5 1 =
      leVal (leBytes 1 reserved) := by
    rw [hshape rest, ← List.append_assoc]
    exact readLE_at (leBytes 4 len ++ leBytes 1 version) (leBytes 1 reserved)
      _ 5 1 (by simp [leBytes_length]) (leBytes_length 1 reserved)
  have e6 : readLE
      (specEncodeRecord len version reserved metaLen mask fd pid ++ rest) 6 2 =
      leVal (leBytes 2 metaLen) := by
    rw [hshape rest, ← List.append_assoc, ← List.append_assoc]
    exact readLE_at (leBytes 4 len ++ leBytes 1 version ++ leBytes 1 reserved)
      (leBytes 2 metaLen) _ 6 2 (by simp [leBytes_length])
      (leBytes_length 2 metaLen)
  have e8 : readLE
      (specEncodeRecord len version reserved metaLen mask fd pid ++ rest) 8 8 =
      leVal (leBytes 8 mask) := by
    rw [hshape rest, ← List.append_assoc, ← List.append_assoc,
      ← List.append_assoc]
    exact readLE_at
      (leBytes 4 len ++ leBytes 1 version ++ leBytes 1 reserved ++
        leBytes 2 metaLen)
      (leBytes 8 mask) _ 8 8 (by simp [leBytes_length]) (leBytes_length 8 mask)
  have e16 : readLE
      (specEncodeRecord len version reserved metaLen mask fd pid ++ rest) 16 4 =
      leVal (leBytes 4 (nat32OfInt fd)) := by
    rw [hshape rest, ← List.append_assoc, ← List.append_assoc,
      ← List.append_assoc, ← List.append_assoc]
    exact readLE_at
      (leBytes 4 len ++ leBytes 1 version ++ leBytes 1 reserved ++
        leBytes 2 metaLen ++ leBytes 8 mask)
      (leBytes 4 (nat32OfInt fd)) _ 16 4 (by simp [leBytes_length])
      (leBytes_length 4 (nat32OfInt fd))
  have e20 : readLE
      (specEncodeRecord len version reserved metaLen mask fd pid ++ rest) 20 4 =
      leVal (leBytes 4 (nat32OfInt pid)) := by
    rw [hshape rest, ← List.append_assoc, ← List.append_assoc,
      ← List.append_assoc, ← List.append_assoc, ← List.append_assoc]
    exact readLE_at
      (leBytes 4 len ++ leBytes 1 version ++ leBytes 1 reserved ++
        leBytes 2 metaLen ++ leBytes 8 mask ++ leBytes 4 (nat32OfInt fd))
      (leBytes 4 (nat32OfInt pid)) _ 20 4 (by simp [leBytes_length])
      (leBytes_length 4 (nat32OfInt pid))
  have hlength : recordSize ≤
      (specEncodeRecord len version reserved metaLen mask fd pid ++
        rest).length := by
    simp [recordSize, List.length_append, specEncodeRecord_length]
  unfold decodeEventMetadata
  rw [if_pos hlength, e0, e4, e5, e6, e8, e16, e20,
    leVal_leBytes_of_lt 4 len hlen,
    leVal_leBytes_of_lt 1 version (by simpa using hver),
    leVal_leBytes_of_lt 1 reserved (by simpa using hres),
    leVal_leBytes_of_lt 2 metaLen hmeta,
    leVal_leBytes_of_lt 8 mask hmask,
    leVal_leBytes_of_lt 4 (nat32OfInt fd) (nat32OfInt_lt fd),
    leVal_leBytes_of_lt 4 (nat32OfInt pid) (nat32OfInt_lt pid),
    int32OfNat_nat32OfInt fd hfd1 hfd2, int32OfNat_nat32OfInt pid hpid1 hpid2]

/-- The stream left after the spec-layout record is exactly the appended
remainder: one record's worth of bytes is consumed. -/
theorem drop_spec_encode (len version reserved metaLen mask : Nat)
    (fd pid : Int) (rest : List Nat) :
    (specEncodeRecord len version reserved metaLen mask fd pid ++
      rest).drop recordSize = rest := by
  have h : recordSize =
      (specEncodeRecord len version reserved metaLen mask fd pid).length := by
    rw [specEncodeRecord_length]
    rfl
  rw [h, List.drop_left]

/-! ## Claim theorems -/

/-- Claim C1: a record whose version byte differs from the expected
protocol version 3 makes the decode path fail with the version-mismatch
error, with the embedded descriptor closed (by the deferred
`data.File.Close()`) before the failure is reported, and with exactly one
record's worth of bytes consumed from the stream. -/
theorem c1_version_mismatch (stream : List Nat) (selfPid : Int)
    (resolve : Int → Option String)
    (hlen : recordSize ≤ stream.length)
    (hver : readLE stream 4 1 ≠ FanotifyMetadataVersion) :
    handlerV2 stream selfPid resolve =
      (.err .versionMismatch, stream.drop recordSize, true) := by
  unfold handlerV2 GetEvent decodeEventMetadata
  rw [if_pos hlen]
  simp [hver]

/-- Witness for C1 at a concrete 24-byte record with version byte 2. -/
theorem c1_witness :
    recordSize ≤
        ([24, 0, 0, 0, 2, 0, 24, 0, 2, 0, 0, 0, 0, 0, 0, 0, 5, 0, 0, 0,
          42, 0, 0, 0] : List Nat).length ∧
      readLE [24, 0, 0, 0, 2, 0, 24, 0, 2, 0, 0, 0, 0, 0, 0, 0, 5, 0, 0, 0,
          42, 0, 0, 0] 4 1 ≠ FanotifyMetadataVersion ∧
      handlerV2 [24, 0, 0, 0, 2, 0, 24, 0, 2, 0, 0, 0, 0, 0, 0, 0, 5, 0, 0, 0,
          42, 0, 0, 0] 7 (fun _ => none) =
        (.err .versionMismatch,
          ([24, 0, 0, 0, 2, 0, 24, 0, 2, 0, 0, 0, 0, 0, 0, 0, 5, 0, 0, 0,
            42, 0, 0, 0] : List Nat).drop recordSize, true) :=
  ⟨by decide, by decide,
    c1_version_mismatch _ 7 (fun _ => none) (by decide) (by decide)⟩

/-- Claim C2: when the decoded record's pid is in `skipPIDs`, the pull
operation closes the embedded descriptor and returns an empty result
that is not an error, and returns no event. -/
theorem c2_skip_pid (stream : List Nat) (skipPIDs : List Int)
    (hlen : recordSize ≤ stream.length)
    (hver : readLE stream 4 1 = FanotifyMetadataVersion)
    (hpid : int32OfNat (readLE stream 20 4) ∈ skipPIDs) :
    Pull stream skipPIDs = ((none, none), stream.drop recordSize, true) := by
  unfold Pull GetEvent decodeEventMetadata
  rw [if_pos hlen]
  simp [hver, hpid]

/-- Witness for C2 at a concrete version-3 record with pid 42 and
`skipPIDs = [42]`. -/
theorem c2_witness :
    recordSize ≤
        ([24, 0, 0, 0, 3, 0, 24, 0, 2, 0, 0, 0, 0, 0, 0, 0, 5, 0, 0, 0,
          42, 0, 0, 0] : List Nat).length ∧
      readLE [24, 0, 0, 0, 3, 0, 24, 0, 2, 0, 0, 0, 0, 0, 0, 0, 5, 0, 0, 0,
          42, 0, 0, 0] 4 1 = FanotifyMetadataVersion ∧
      int32OfNat (readLE [24, 0, 0, 0, 3, 0, 24, 0, 2, 0, 0, 0, 0, 0, 0, 0,
          5, 0, 0, 0, 42, 0, 0, 0] 20 4) ∈ ([42] : List Int) ∧
      Pull [24, 0, 0, 0, 3, 0, 24, 0, 2, 0, 0, 0, 0, 0, 0, 0, 5, 0, 0, 0,
          42, 0, 0, 0] [42] =
        ((none, none),
          ([24, 0, 0, 0, 3, 0, 24, 0, 2, 0, 0, 0, 0, 0, 0, 0, 5, 0, 0, 0,
            42, 0, 0, 0] : List Nat).drop recordSize, true) :=
  ⟨by decide, by decide, by decide,
    c2_skip_pid _ [42] (by decide) (by decide) (by decide)⟩

/-- Claim C3: the decode path interprets one record as the fixed-size
little-endian structure `uint32 Len, uint8 Version, uint8 Reserved,
uint16 MetadataLen, uint64 Mask, int32 Fd, int32 Pid`: decoding a record
laid out that way (the spec-side `specEncodeRecord`) recovers exactly
those field values, both in the internal struct and in the public event
`GetEvent` builds from it. -/
theorem c3_record_layout (len version reserved metaLen mask : Nat)
    (fd pid : Int)
    (hlen : len < 256 ^ 4) (hver : version < 256) (hres : reserved < 256)
    (hmeta : metaLen < 256 ^ 2) (hmask : mask < 256 ^ 8)
    (hfd1 : -2147483648 ≤ fd) (hfd2 : fd < 2147483648)
    (hpid1 : -2147483648 ≤ pid) (hpid2 : pid < 2147483648) :
    decodeEventMetadata (specEncodeRecord len version reserved metaLen mask
        fd pid) = some ⟨len, version, reserved, metaLen, mask, fd, pid⟩ ∧
      GetEvent (specEncodeRecord len version reserved metaLen mask fd pid) =
        some (⟨len, version, reserved, metaLen, mask, fd, pid⟩, []) := by
  have hdec := decode_spec_encode len version reserved metaLen mask fd pid []
    hlen hver hres hmeta hmask hfd1 hfd2 hpid1 hpid2
  rw [List.append_nil] at hdec
  have hdrop := drop_spec_encode len version reserved metaLen mask fd pid []
  rw [List.append_nil] at hdrop
  refine ⟨hdec, ?_⟩
  unfold GetEvent
  rw [hdec, hdrop]

/-- Witness for C3 at concrete field values. -/
theorem c3_witness :
    (24 : Nat) < 256 ^ 4 ∧ (3 : Nat) < 256 ∧ (0 : Nat) < 256 ∧
      (24 : Nat) < 256 ^ 2 ∧ (10 : Nat) < 256 ^ 8 ∧
      (-2147483648 : Int) ≤ 5 ∧ (5 : Int) < 2147483648 ∧
      (-2147483648 : Int) ≤ 42 ∧ (42 : Int) < 2147483648 ∧
      (decodeEventMetadata (specEncodeRecord 24 3 0 24 10 5 42) =
          some ⟨24, 3, 0, 24, 10, 5, 42⟩ ∧
        GetEvent (specEncodeRecord 24 3 0 24 10 5 42) =
          some (⟨24, 3, 0, 24, 10, 5, 42⟩, [])) :=
  ⟨by decide, by decide, by decide, by decide, by decide, by decide,
    by decide, by decide, by decide,
    c3_record_layout 24 3 0 24 10 5 42 (by decide) (by decide) (by decide)
      (by decide) (by decide) (by decide) (by decide) (by decide) (by decide)⟩

/-- Claim C4: encode-then-decode round-trip — a synthetic record encoded
in the wire layout with a chosen mask, fd and pid, fed through the decode
path (with any remaining stream after it), yields an event whose `Mask`
and `Pid` equal the encoded values exactly. -/
theorem c4_roundtrip (len version reserved metaLen mask : Nat)
    (fd pid : Int) (rest : List Nat)
    (hlen : len < 256 ^ 4) (hver : version < 256) (hres : reserved < 256)
    (hmeta : metaLen < 256 ^ 2) (hmask : mask < 256 ^ 8)
    (hfd1 : -2147483648 ≤ fd) (hfd2 : fd < 2147483648)
    (hpid1 : -2147483648 ≤ pid) (hpid2 : pid < 2147483648) :
    ∃ ev : EventMetadata,
      GetEvent (specEncodeRecord len version reserved metaLen mask fd pid ++
          rest) = some (ev, rest) ∧ ev.Mask = mask ∧ ev.Pid = pid ∧
        ev.File = fd := by
  refine ⟨⟨len, version, reserved, metaLen, mask, fd, pid⟩, ?_, rfl, rfl, rfl⟩
  unfold GetEvent
  rw [decode_spec_encode len version reserved metaLen mask fd pid rest
    hlen hver hres hmeta hmask hfd1 hfd2 hpid1 hpid2,
    drop_spec_encode]

/-- Witness for C4 at concrete field values and a nonempty remainder. -/
theorem c4_witness :
    (24 : Nat) < 256 ^ 4 ∧ (3 : Nat) < 256 ∧ (0 : Nat) < 256 ∧
      (24 : Nat) < 256 ^ 2 ∧ (2 : Nat) < 256 ^ 8 ∧
      (-2147483648 : Int) ≤ -1 ∧ (-1 : Int) < 2147483648 ∧
      (-2147483648 : Int) ≤ 42 ∧ (42 : Int) < 2147483648 ∧
      ∃ ev : EventMetadata,
        GetEvent (specEncodeRecord 24 3 0 24 2 (-1) 42 ++ [9, 9]) =
            some (ev, [9, 9]) ∧ ev.Mask = 2 ∧ ev.Pid = 42 ∧ ev.File = -1 :=
  ⟨by decide, by decide, by decide, by decide, by decide, by decide,
    by decide, by decide, by decide,
    c4_roundtrip 24 3 0 24 2 (-1) 42 [9, 9] (by decide) (by decide)
      (by decide) (by decide) (by decide) (by decide) (by decide) (by decide)
      (by decide)⟩

/-- Claim C5: the mask-matching predicate is true iff every bit set in `m`
is also set in the event's mask (and hence false whenever at least one bit
of `m` is absent from the event's mask). -/
theorem c5_matchMask (evMask m : Nat) :
    MatchMask evMask m = true ↔
      ∀ i, m.testBit i = true → evMask.testBit i = true := by
  unfold MatchMask
  rw [beq_iff_eq]
  constructor
  · intro h i hi
    have ht : (evMask &&& m).testBit i = m.testBit i := by rw [h]
    rw [Nat.testBit_land, hi] at ht
    simpa using ht
  · intro h
    apply Nat.eq_of_testBit_eq
    intro i
    rw [Nat.testBit_land]
    cases hm : m.testBit i with
    | false => simp
    | true => simp [h i hm]

/-- Claim C6: the allow response writes the little-endian record
`int32 fd, uint32 0x01` and the deny response writes the same record with
code `0x02`; both agree with the spec's response layout and decode back to
the event's descriptor and the response code. -/
theorem c6_response_records (ev : EventMetadata)
    (h1 : -2147483648 ≤ ev.File) (h2 : ev.File < 2147483648) :
    ResponseAllow ev = specResponseRecord ev.File FanAllow ∧
      ResponseDeny ev = specResponseRecord ev.File FanDeny ∧
      (ResponseAllow ev).length = 8 ∧ (ResponseDeny ev).length = 8 ∧
      int32OfNat (readLE (ResponseAllow ev) 0 4) = ev.File ∧
      readLE (ResponseAllow ev) 4 4 = FanAllow ∧
      int32OfNat (readLE (ResponseDeny ev) 0 4) = ev.File ∧
      readLE (ResponseDeny ev) 4 4 = FanDeny ∧
      FanAllow = 1 ∧ FanDeny = 2 := by
  have hshape : ∀ code : Nat,
      responseWrite ev.File code =
        [] ++ (leBytes 4 (nat32OfInt ev.File) ++ leBytes 4 code) := by
    intro code
    simp [responseWrite]
  have hfd : ∀ code : Nat,
      readLE (responseWrite ev.File code) 0 4 = nat32OfInt ev.File := by
    intro code
    rw [hshape code,
      readLE_at [] (leBytes 4 (nat32OfInt ev.File)) _ 0 4 rfl
        (leBytes_length 4 (nat32OfInt ev.File)),
      leVal_leBytes_of_lt 4 (nat32OfInt ev.File) (nat32OfInt_lt ev.File)]
  have hcode : ∀ code : Nat, code < 256 ^ 4 →
      readLE (responseWrite ev.File code) 4 4 = code := by
    intro code hc
    have hshape2 : responseWrite ev.File code =
        leBytes 4 (nat32OfInt ev.File) ++ (leBytes 4 code ++ []) := by
      simp [responseWrite]
    rw [hshape2,
      readLE_at (leBytes 4 (nat32OfInt ev.File)) (leBytes 4 code) [] 4 4
        (leBytes_length 4 (nat32OfInt ev.File)) (leBytes_length 4 code),
      leVal_leBytes_of_lt 4 code hc]
  refine ⟨rfl, rfl, ?_, ?_, ?_, ?_, ?_, ?_, rfl, rfl⟩
  · simp [ResponseAllow, responseWrite, leBytes_length]
  · simp [ResponseDeny, responseWrite, leBytes_length]
  · rw [show ResponseAllow ev = responseWrite ev.File FanAllow from rfl,
      hfd FanAllow, int32OfNat_nat32OfInt ev.File h1 h2]
  · exact hcode FanAllow (by norm_num [FanAllow])
  · rw [show ResponseDeny ev = responseWrite ev.File FanDeny from rfl,
      hfd FanDeny, int32OfNat_nat32OfInt ev.File h1 h2]
  · exact hcode FanDeny (by norm_num [FanDeny])

/-- Witness for C6 at a concrete event with descriptor 5. -/
theorem c6_witness :
    (-2147483648 : Int) ≤ (5 : Int) ∧ (5 : Int) < 2147483648 ∧
      (ResponseAllow ⟨24, 3, 0, 24, 2, 5, 42⟩ =
          specResponseRecord (5 : Int) FanAllow ∧
        ResponseDeny ⟨24, 3, 0, 24, 2, 5, 42⟩ =
          specResponseRecord (5 : Int) FanDeny ∧
        (ResponseAllow ⟨24, 3, 0, 24, 2, 5, 42⟩).length = 8 ∧
        (ResponseDeny ⟨24, 3, 0, 24, 2, 5, 42⟩).length = 8 ∧
        int32OfNat (readLE (ResponseAllow ⟨24, 3, 0, 24, 2, 5, 42⟩) 0 4) =
          (5 : Int) ∧
        readLE (ResponseAllow ⟨24, 3, 0, 24, 2, 5, 42⟩) 4 4 = FanAllow ∧
        int32OfNat (readLE (ResponseDeny ⟨24, 3, 0, 24, 2, 5, 42⟩) 0 4) =
          (5 : Int) ∧
        readLE (ResponseDeny ⟨24, 3, 0, 24, 2, 5, 42⟩) 4 4 = FanDeny ∧
        FanAllow = 1 ∧ FanDeny = 2) :=
  ⟨by decide, by decide,
    c6_response_records ⟨24, 3, 0, 24, 2, 5, 42⟩ (by decide) (by decide)⟩

/-- Counterexample for C7: at a concrete per-event error (the handler's
self-PID error), one iteration of the `src/cmd/main.go` polling loops
(`if str, err := f(nd); err == nil && len(str) > 0`) emits no output at
all — the error is not surfaced to the output sink as a diagnostic line,
contradicting the claim as stated. -/
theorem c7_counterexample :
    cmdLoopIterOutput "" (some ErrKind.selfPid) = [] := by decide

/-- Claim C7 (amended): every steady-state handler error leaves the loop
running and never exits the process, and a fatal exit happens only when
initialization or mark registration fails before the loop starts; but only
the `src/unnamed/part_000` loop surfaces the error to the output sink as a
diagnostic `error: <msg>` line — the two `src/cmd/main.go` loops silently
drop per-event errors. -/
theorem c7_amended :
    (∀ (s : String) (k : ErrKind), cmdLoopIterOutput s (some k) = []) ∧
      (∀ s m : String,
        part000LoopIterOutput s (some m) = ["error: " ++ m]) ∧
      (∀ r : HandlerRes, loopExits r = false) ∧
      (∀ ie me : Option String,
        mainStartup ie me = none ↔ ie = none ∧ me = none) := by
  refine ⟨fun s k => rfl, fun s m => ?_, fun r => rfl, fun ie me => ?_⟩
  · simp [part000LoopIterOutput]
  · cases ie <;> cases me <;> simp [mainStartup]

/-- Counterexample for C8: for a concrete recognized close-write event,
the `src/unnamed/part_000` handler emits the line
`PID:42 /tmp/f - 2020-01-01`, which is not of the claimed exact form
`PID:<n> <path>` for the resolved path `/tmp/f` (it carries a
modification-time suffix). -/
theorem c8_counterexample :
    handlerPart000 none (some ⟨24, 3, 0, 24, 8, 5, 42⟩)
        (fun _ => some "/tmp/f") (fun _ => some "2020-01-01") =
      .line "PID:42 /tmp/f - 2020-01-01" ∧
      "PID:42 /tmp/f - 2020-01-01" ≠ formatLine 42 "/tmp/f" ∧
      part000LoopIterOutput "PID:42 /tmp/f - 2020-01-01" none =
        ["PID:42 /tmp/f - 2020-01-01"] := by decide

theorem formatLine_length_pos (pid : Int) (path : String) :
    0 < (formatLine pid path).length := by
  have h4 : ("PID:" : String).length = 4 := rfl
  simp [formatLine, String.length_append, h4]

theorem formatLineMTime_length_pos (pid : Int) (path mtime : String) :
    0 < (formatLineMTime pid path mtime).length := by
  have h4 : ("PID:" : String).length = 4 := rfl
  simp [formatLineMTime, String.length_append, h4]

/-- Claim C8 (amended): for every recognized event, the second
`src/cmd/main.go` loop emits exactly one line of exactly the form
`PID:<n> <path>`; for every recognized event, the `src/unnamed/part_000`
loop also emits exactly one line, but of the form
`PID:<n> <path> - <mtime>` — the claimed form followed by a
modification-time suffix. -/
theorem c8_amended (stream : List Nat) (selfPid : Int)
    (resolve : Int → Option String) (path : String)
    (hlen : recordSize ≤ stream.length)
    (hver : readLE stream 4 1 = FanotifyMetadataVersion)
    (hpid : int32OfNat (readLE stream 20 4) ≠ selfPid)
    (hres : resolve (int32OfNat (readLE stream 16 4)) = some path)
    (hmask : readLE stream 8 8 &&& FanModify = FanModify ∨
      (readLE stream 8 8 &&& FanModify ≠ FanModify ∧
        readLE stream 8 8 &&& FanCloseWrite = FanCloseWrite)) :
    handlerV2 stream selfPid resolve =
        (.ok (formatLine (int32OfNat (readLE stream 20 4)) path),
          stream.drop recordSize, true) ∧
      cmdLoopIterOutput (formatLine (int32OfNat (readLE stream 20 4)) path)
          none =
        [formatLine (int32OfNat (readLE stream 20 4)) path] ∧
      (∀ (ev : EventMetadata) (resolveP statP : Int → Option String)
        (p mtime : String), resolveP ev.File = some p →
        statP ev.File = some mtime →
        (MatchMask ev.Mask FanCloseWrite || MatchMask ev.Mask FanModify) =
          true →
        handlerPart000 none (some ev) resolveP statP =
            .line (formatLineMTime ev.Pid p mtime) ∧
          part000LoopIterOutput (formatLineMTime ev.Pid p mtime) none =
            [formatLineMTime ev.Pid p mtime] ∧
          formatLineMTime ev.Pid p mtime =
            formatLine ev.Pid p ++ " - " ++ mtime) := by
  refine ⟨?_, ?_, ?_⟩
  · unfold handlerV2 GetEvent decodeEventMetadata
    rw [if_pos hlen]
    rcases hmask with h | ⟨h1, h2⟩
    · simp [hver, hpid, hres, h]
    · simp [hver, hpid, hres, h1, h2]
  · unfold cmdLoopIterOutput
    rw [if_pos (formatLine_length_pos _ _)]
  · intro ev resolveP statP p mtime hresP hstatP hmaskP
    refine ⟨?_, ?_, rfl⟩
    · unfold handlerPart000
      simp [hresP, hstatP, hmaskP]
    · unfold part000LoopIterOutput
      rw [if_pos (formatLineMTime_length_pos _ _ _)]
      simp

/-- Witness for C8 (amended) at a concrete version-3 modify record for the
`src/cmd/main.go` loop and a concrete close-write event for the
`src/unnamed/part_000` loop. -/
theorem c8_witness :
    recordSize ≤
        ([24, 0, 0, 0, 3, 0, 24, 0, 2, 0, 0, 0, 0, 0, 0, 0, 5, 0, 0, 0,
          42, 0, 0, 0] : List Nat).length ∧
      readLE [24, 0, 0, 0, 3, 0, 24, 0, 2, 0, 0, 0, 0, 0, 0, 0, 5, 0, 0, 0,
          42, 0, 0, 0] 4 1 = FanotifyMetadataVersion ∧
      int32OfNat (readLE [24, 0, 0, 0, 3, 0, 24, 0, 2, 0, 0, 0, 0, 0, 0, 0,
          5, 0, 0, 0, 42, 0, 0, 0] 20 4) ≠ (7 : Int) ∧
      (fun _ : Int => some "/a") (int32OfNat (readLE [24, 0, 0, 0, 3, 0, 24,
          0, 2, 0, 0, 0, 0, 0, 0, 0, 5, 0, 0, 0, 42, 0, 0, 0] 16 4)) =
        some "/a" ∧
      (fun _ : Int => some "/b") ((⟨24, 3, 0, 24, 8, 6, 43⟩ :
          EventMetadata).File) = some "/b" ∧
      (fun _ : Int => some "t1") ((⟨24, 3, 0, 24, 8, 6, 43⟩ :
          EventMetadata).File) = some "t1" ∧
      (MatchMask (⟨24, 3, 0, 24, 8, 6, 43⟩ : EventMetadata).Mask
          FanCloseWrite ||
        MatchMask (⟨24, 3, 0, 24, 8, 6, 43⟩ : EventMetadata).Mask
          FanModify) = true ∧
      (handlerV2 [24, 0, 0, 0, 3, 0, 24, 0, 2, 0, 0, 0, 0, 0, 0, 0, 5, 0, 0,
          0, 42, 0, 0, 0] 7 (fun _ => some "/a") =
        (.ok (formatLine (int32OfNat (readLE [24, 0, 0, 0, 3, 0, 24, 0, 2, 0,
            0, 0, 0, 0, 0, 0, 5, 0, 0, 0, 42, 0, 0, 0] 20 4)) "/a"),
          ([24, 0, 0, 0, 3, 0, 24, 0, 2, 0, 0, 0, 0, 0, 0, 0, 5, 0, 0, 0,
            42, 0, 0, 0] : List Nat).drop recordSize, true) ∧
        cmdLoopIterOutput (formatLine (int32OfNat (readLE [24, 0, 0, 0, 3, 0,
            24, 0, 2, 0, 0, 0, 0, 0, 0, 0, 5, 0, 0, 0, 42, 0, 0, 0] 20 4))
            "/a") none =
          [formatLine (int32OfNat (readLE [24, 0, 0, 0, 3, 0, 24, 0, 2, 0, 0,
            0, 0, 0, 0, 0, 5, 0, 0, 0, 42, 0, 0, 0] 20 4)) "/a"]) ∧
      handlerPart000 none (some ⟨24, 3, 0, 24, 8, 6, 43⟩)
          (fun _ => some "/b") (fun _ => some "t1") =
        .line (formatLineMTime (43 : Int) "/b" "t1") ∧
      part000LoopIterOutput (formatLineMTime (43 : Int) "/b" "t1") none =
        [formatLineMTime (43 : Int) "/b" "t1"] ∧
      formatLineMTime (43 : Int) "/b" "t1" =
        formatLine (43 : Int) "/b" ++ " - " ++ "t1" :=
  have h := c8_amended [24, 0, 0, 0, 3, 0, 24, 0, 2, 0, 0, 0, 0, 0, 0, 0, 5,
    0, 0, 0, 42, 0, 0, 0] 7 (fun _ => some "/a") "/a" (by decide) (by decide)
    (by decide) (by decide) (Or.inl (by decide))
  have hp := h.2.2 ⟨24, 3, 0, 24, 8, 6, 43⟩ (fun _ => some "/b")
    (fun _ => some "t1") "/b" "t1" (by decide) (by decide) (by decide)
  ⟨by decide, by decide, by decide, by decide, by decide, by decide,
    by decide, ⟨h.1, h.2.1⟩, hp.1, hp.2.1, hp.2.2⟩

/-- Claim C9: `Initialize` always returns a non-nil handle — even when the
underlying `fanotify_init` call fails with a nonzero errno — and that
handle wraps the descriptor returned by the (possibly failed) call;
failure is signalled only through the error value. -/
theorem c9_initialize (fd : Int) (errno : Nat) :
    (Initialize fd errno).1 = some ⟨fd⟩ ∧
      ((Initialize fd errno).2 = none ↔ errno = 0) := by
  unfold Initialize
  by_cases h : errno = 0 <;> simp [h]

/-- Claim C10: in the first `src/cmd/main.go` variant, an empty pull
result (nil event, nil error) is dereferenced by the deferred
`data.File().Close()` before the `if data == nil` guard can run, so the
handler panics and the guard's empty-result branch is unreachable as
protection (the handler never produces it for any input); the
`src/unnamed/part_000` handler, which checks for nil first, returns the
empty result cleanly on the same input. -/
theorem c10_nil_deref (resolve stat : Int → Option String) :
    handlerV1 none none resolve = .panicked ∧
      handlerPart000 none none resolve stat = .empty ∧
      ∀ (pullErr : Option ErrKind) (data : Option EventMetadata)
        (r : Int → Option String), handlerV1 pullErr data r ≠ .empty := by
  refine ⟨rfl, rfl, ?_⟩
  intro pullErr data r
  cases pullErr with
  | some k => simp [handlerV1]
  | none =>
      cases data with
      | none => simp [handlerV1]
      | some ev =>
          simp only [handlerV1]
          rw [if_neg (by simp)]
          cases hr : r ev.File with
          | none => simp
          | some p =>
              by_cases h1 : MatchMask ev.Mask FanModify <;>
                by_cases h2 : MatchMask ev.Mask FanCloseWrite <;>
                simp [h1, h2]
